import Mathlib

/-!
Shallow embedding of the CHAMPVA document-checker pipeline
(`src/utils.py`, `src/api_handler.py`, `src/app.py`) and proofs of the
spec claims about it.

External HTTP providers (the OCR service and the language-model service)
are modelled as explicit inputs: each simulated response carries the
status code, raw body text, and the extracted/parsed content the Python
code would read out of the JSON body.  Streamlit UI calls (`st.error`,
`st.warning`, ...) are modelled as accumulated message lists / rendered
values, and `raise` as an explicit outcome constructor.
-/

set_option autoImplicit false

namespace Champva

/-- Characters of `haystack` start with the characters of `needle`
(Python `str.startswith` over the decoded character list). -/
def startsWithChars : List Char → List Char → Bool
  | _, [] => true
  | [], _ :: _ => false
  | h :: hs, n :: ns => h = n && startsWithChars hs ns

/-- `needle` occurs somewhere inside the list (substring containment). -/
def occursIn (needle : List Char) : List Char → Bool
  | [] => needle.isEmpty
  | h :: hs => startsWithChars (h :: hs) needle || occursIn needle hs

/-- Python's `needle in haystack` for strings: substring containment. -/
def containsSubstring (haystack needle : String) : Bool :=
  occursIn needle.data haystack.data

/-- Python's `str.lower()`, modelled on the ASCII range (the only range
the checked literals `.pdf` and `model` exercise). -/
def pyLower (s : String) : String :=
  ⟨s.data.map Char.toLower⟩

/-- Python's `str.endswith(ending)`. -/
def pyEndsWith (s ending : String) : Bool :=
  startsWithChars s.data.reverse ending.data.reverse

/-- An uploaded file as seen by the validator: Streamlit's UploadedFile
exposes `.type` (declared MIME type string) and `.name` (filename). -/
structure UploadedFile where
  name : String
  type : String
deriving DecidableEq

/-- `valid_types` list from `validate_file_type` in `src/utils.py`. -/
def valid_types : List String :=
  ["application/pdf", "image/jpeg", "image/jpg", "image/png"]

/-- `validate_file_type` from `src/utils.py` (lines 3-25): if the declared
type is not in `valid_types`, fall back to checking whether the lowercased
filename ends in `.pdf`; otherwise accept. -/
def validate_file_type (file : UploadedFile) : Bool :=
  if valid_types.contains file.type then
    true
  else
    if pyEndsWith (pyLower file.name) ".pdf" then
      true
    else
      false

/-- The untrusted JSON verdict produced by the language model
(`AnalysisResult` in the spec): every field optional, defaults applied
at each use site via `.get`. -/
structure AnalysisResult where
  document_type : Option String
  has_issues : Option Bool
  missing_codes : Option (List String)
  invalid_codes : Option (List String)
  wrong_document_type : Option Bool
  expected_type : Option String
  errors : Option (List String)
  notes : Option String
deriving DecidableEq

/-- The empty JSON object `{}` (every key absent). -/
def emptyAnalysis : AnalysisResult :=
  { document_type := none, has_issues := none, missing_codes := none,
    invalid_codes := none, wrong_document_type := none,
    expected_type := none, errors := none, notes := none }

/-- `determine_document_type` from `src/utils.py` (lines 27-41):
`None`/empty input maps to "Unknown", otherwise
`analysis_result.get("document_type", "Unknown")`. -/
def determine_document_type (analysis_result : Option AnalysisResult) : String :=
  match analysis_result with
  | none => "Unknown"
  | some a => a.document_type.getD "Unknown"

/-- The record dictionary passed to `format_results`: it reads only the
keys `document_type` and `analysis`, with defensive defaults for both. -/
structure ResultRecord where
  document_type : Option String
  analysis : Option AnalysisResult
deriving DecidableEq

/-- `format_results` from `src/utils.py` (lines 43-95).  Sections are
concatenated in source order; a section whose guard value is falsy in
Python (empty list, `False`, empty string) contributes the empty string. -/
def format_results (result : ResultRecord) : String :=
  let doc_type := result.document_type.getD "Unknown"
  let s1 := "**Document Type**: " ++ doc_type ++ "\n\n"
  let analysis := result.analysis.getD emptyAnalysis
  let has_issues := analysis.has_issues.getD true
  let s2 :=
    if has_issues = false then
      "✅ **Status**: This document appears to be valid with proper medical codes.\n\n"
    else
      "❌ **Status**: Issues found in this document.\n\n"
  let missing_codes := analysis.missing_codes.getD []
  let s3 :=
    if missing_codes.isEmpty then "" else
      "**Missing Codes**:\n" ++
        String.join (missing_codes.map (fun code => "- " ++ code ++ "\n")) ++ "\n"
  let invalid_codes := analysis.invalid_codes.getD []
  let s4 :=
    if invalid_codes.isEmpty then "" else
      "**Invalid Codes**:\n" ++
        String.join (invalid_codes.map (fun code => "- " ++ code ++ "\n")) ++ "\n"
  let wrong_doc_type := analysis.wrong_document_type.getD false
  let s5 :=
    if wrong_doc_type then
      "**Wrong Document Type**: This does not appear to be a " ++
        analysis.expected_type.getD "Unknown" ++ " document.\n\n"
    else ""
  let notes := analysis.notes.getD ""
  let s6 := if notes = "" then "" else "**Notes**: " ++ notes ++ "\n\n"
  s1 ++ (s2 ++ (s3 ++ (s4 ++ (s5 ++ s6))))

/-! ## OCR client (`process_document_ocr` in `src/api_handler.py`) -/

/-- Length of the base64 encoding of `n` bytes
(`len(base64.b64encode(b))` = 4 * ceil(n/3)). -/
def b64_encoded_size (n : Nat) : Nat :=
  4 * ((n + 2) / 3)

/-- Simulated behaviour of the single `requests.post` to the OCR
endpoint: either the call itself raises (carried message), or it returns
a response with a status code, raw body `text`, and — for the 200 path —
the string the code reads out of `choices[0].message.content`. -/
structure OcrHttpResult where
  raised : Option String
  status_code : Nat
  text : String
  extracted : String
deriving DecidableEq

/-- What `process_document_ocr` does: an uncaught `raise`, or a returned
value (`Some` extracted text or Python `None`) together with the
`st.error` messages displayed along the way. -/
inductive OcrOutcome where
  | raised (msg : String)
  | returned (value : Option String) (displayed_errors : List String)
deriving DecidableEq

/-- `true` exactly on the `raised` constructor. -/
def OcrOutcome.isRaised : OcrOutcome → Bool
  | .raised _ => true
  | .returned _ _ => false

/-- Outcome of one `process_document_ocr` call plus how many HTTP
requests were attempted against the provider. -/
structure OcrRun where
  requests_attempted : Nat
  outcome : OcrOutcome
deriving DecidableEq

set_option linter.unusedVariables false in
/-- `process_document_ocr` from `src/api_handler.py` (lines 11-74).
`mistral_api_key` is the environment credential; `file_size` the byte
length of the file at `file_path` (the source reads and base64-encodes
the bytes but never inspects their size); `http` simulates the one
`requests.post`.  On missing key it raises `ValueError` before the
`try`.  Inside the `try`: a 200 response yields the extracted content;
a non-200 response displays `OCR API Error: {status} - {body}` and
returns `None`; any exception is caught, displayed, and `None` is
returned. -/
def process_document_ocr (mistral_api_key : Option String) (file_size : Nat)
    (http : OcrHttpResult) : OcrRun :=
  match mistral_api_key with
  | none => { requests_attempted := 0,
              outcome := .raised "Mistral API key not found in environment variables" }
  | some _ =>
    -- file bytes read and base64-encoded; no size check appears in the source,
    -- so `file_size` is unused and the request is always attempted
    match http.raised with
    | some msg =>
      { requests_attempted := 1,
        outcome := .returned none ["Error during OCR processing: " ++ msg] }
    | none =>
      if http.status_code = 200 then
        { requests_attempted := 1, outcome := .returned (some http.extracted) [] }
      else
        { requests_attempted := 1,
          outcome := .returned none
            ["OCR API Error: " ++ toString http.status_code ++ " - " ++ http.text] }

/-! ## Content analyzer (`analyze_document_content` in `src/api_handler.py`) -/

/-- Simulated behaviour of one `requests.post` to the chat-completions
endpoint for one model of the fallback list: status code, raw body
`text`, the string at `choices[0].message.content`, whether
`json.loads` of that content succeeds, the parsed verdict when it does,
and the message `response.raise_for_status()` would raise with. -/
structure LlmResponse where
  status_code : Nat
  text : String
  content_parses : Bool
  parsed : AnalysisResult
  http_error_msg : String
deriving DecidableEq

/-- The fallback list `models_to_try` from `src/api_handler.py` line 125. -/
def models_to_try : List String :=
  ["gpt-4.1", "gpt-4.1-mini", "gpt-4"]

/-- The `model`-unavailable test the source applies to a non-200 response:
`response.status_code == 404 or "model" in response.text.lower()`. -/
def model_unavailable (r : LlmResponse) : Bool :=
  r.status_code == 404 || containsSubstring (pyLower r.text) "model"

/-- One attempt either advances to the next model because the provider
signalled model-unavailability, or because a 200 response carried
unparseable JSON (both `continue` paths in the source loop). -/
def attempt_advances (r : LlmResponse) : Bool :=
  (r.status_code == 200 && !r.content_parses) ||
    (r.status_code != 200 && model_unavailable r)

/-- Result of the `for model in models_to_try` loop: an early `return`
with a parsed verdict, fall-through past the loop with all models
exhausted, or an exception raised by `response.raise_for_status()`.
Each constructor records how many HTTP requests were made. -/
inductive LoopResult where
  | success (r : AnalysisResult) (calls : Nat)
  | exhausted (calls : Nat)
  | raised (msg : String) (calls : Nat)
deriving DecidableEq

/-- The loop body of `analyze_document_content` (lines 127-158), one
recursive step per model identifier.  `provider i` is the simulated
response to the i-th HTTP request.  Mirrors the source order: 200 with
parseable JSON returns; 200 with malformed JSON continues; then
`status == 404 or "model" in text.lower()` continues;
`raise_for_status()` raises exactly for client-error (400-499) and
server-error (500-599) statuses and is a no-op (so the loop continues)
for any remaining status. -/
def try_models (provider : Nat → LlmResponse) : List String → Nat → LoopResult
  | [], calls => .exhausted calls
  | _model :: rest, calls =>
    let r := provider calls
    if r.status_code = 200 then
      if r.content_parses then .success r.parsed (calls + 1)
      else try_models provider rest (calls + 1)
    else if r.status_code == 404 || containsSubstring (pyLower r.text) "model" then
      try_models provider rest (calls + 1)
    else if 400 ≤ r.status_code ∧ r.status_code < 600 then
      .raised r.http_error_msg (calls + 1)
    else
      try_models provider rest (calls + 1)

/-- The synthetic result returned when the loop exhausts all models
(lines 160-166). -/
def all_models_failed_result : AnalysisResult :=
  { document_type := some "Unknown", has_issues := some true,
    missing_codes := none, invalid_codes := none,
    wrong_document_type := none, expected_type := none,
    errors := some ["Failed to analyze document with all available models."],
    notes := some "The system encountered an error while analyzing this document." }

/-- The synthetic result built by the outer `except` handler
(lines 168-175) from the caught exception's message. -/
def analysis_error_result (msg : String) : AnalysisResult :=
  { document_type := some "Unknown", has_issues := some true,
    missing_codes := none, invalid_codes := none,
    wrong_document_type := none, expected_type := none,
    errors := some ["Analysis error: " ++ msg],
    notes := some "The system encountered an error while analyzing this document." }

/-- What `analyze_document_content` does: an uncaught `raise` (only the
missing-key `ValueError`, raised before the `try`), or a returned
verdict, with the number of HTTP requests made and the `st.error`
messages displayed. -/
inductive AnalyzeOutcome where
  | raised (msg : String)
  | returned (result : AnalysisResult) (calls : Nat) (displayed_errors : List String)
deriving DecidableEq

/-- `true` exactly on the `raised` constructor. -/
def AnalyzeOutcome.isRaised : AnalyzeOutcome → Bool
  | .raised _ => true
  | .returned _ _ _ => false

/-- `analyze_document_content` from `src/api_handler.py` (lines 76-175).
Missing key raises before the `try`; otherwise the model-fallback loop
runs; exhaustion returns the synthetic `all_models_failed_result`; any
exception raised inside the `try` (in this model, `raise_for_status`)
is caught by the outer handler, which displays it and returns
`analysis_error_result`. -/
def analyze_document_content (openai_api_key : Option String)
    (provider : Nat → LlmResponse) : AnalyzeOutcome :=
  match openai_api_key with
  | none => .raised "OpenAI API key not found in environment variables"
  | some _ =>
    match try_models provider models_to_try 0 with
    | .success r calls => .returned r calls []
    | .exhausted calls => .returned all_models_failed_result calls []
    | .raised msg calls =>
      .returned (analysis_error_result msg) calls
        ["Error during document analysis: " ++ msg]

/-! ## Orchestrator (`main` and `display_results` in `src/app.py`) -/

/-- Result of one pipeline step as observed by the orchestrator's
per-file `try`: the step returned a value, or it raised. -/
inductive StepResult (α : Type) where
  | ok (a : α)
  | raise (msg : String)
deriving DecidableEq

/-- One uploaded file together with the simulated behaviour of the two
external calls made for it: `ocr` is what `process_document_ocr`
does (returns `Some` text / Python `None`, or raises — e.g. the
missing-key `ValueError`), `analysis` what `analyze_document_content`
does. -/
structure FileSim where
  file : UploadedFile
  ocr : StepResult (Option String)
  analysis : StepResult AnalysisResult
deriving DecidableEq

/-- The record dictionary appended to `st.session_state.results`
(lines 100-105 of `src/app.py`). -/
structure ProcessingRecord where
  filename : String
  document_type : String
  analysis : AnalysisResult
deriving DecidableEq

/-- Observable effects of one iteration of the `for file in
uploaded_files` loop (lines 71-112 of `src/app.py`): the appended record
(if any), the `st.error` messages shown, and whether the iteration's
temporary file was created and removed. -/
structure FileOutcome where
  record : Option ProcessingRecord
  errors : List String
  temp_created : Bool
  temp_removed : Bool
deriving DecidableEq

/-- One iteration of the per-file loop in `main`, mirroring the source's
control flow.  Validation failure: `st.error` + `continue` (before the
temp file exists).  Then the temp file is written.  OCR raising is
caught by the per-file `except` (no `os.unlink` runs).  A falsy
`extracted_text` (`None` or `""`): `st.error` + `continue`, skipping the
`os.unlink` at the end of the `try`.  Analysis raising is likewise
caught before `os.unlink`.  Only the full success path reaches
`os.unlink(temp_file_path)`. -/
def process_one_file (sim : FileSim) : FileOutcome :=
  if validate_file_type sim.file = false then
    { record := none,
      errors := ["Invalid file type for " ++ sim.file.name ++
        ". Only PDF and image formats are supported."],
      temp_created := false, temp_removed := false }
  else
    match sim.ocr with
    | .raise msg =>
      { record := none,
        errors := ["Error processing " ++ sim.file.name ++ ": " ++ msg],
        temp_created := true, temp_removed := false }
    | .ok extracted_text =>
      if extracted_text.getD "" = "" then
        { record := none,
          errors := ["Failed to extract text from " ++ sim.file.name],
          temp_created := true, temp_removed := false }
      else
        match sim.analysis with
        | .raise msg =>
          { record := none,
            errors := ["Error processing " ++ sim.file.name ++ ": " ++ msg],
            temp_created := true, temp_removed := false }
        | .ok analysis_result =>
          { record := some
              { filename := sim.file.name,
                document_type := determine_document_type (some analysis_result),
                analysis := analysis_result },
            errors := [], temp_created := true, temp_removed := true }

/-- The processing loop of `main` over the uploaded batch: the 3-file
cap (`uploaded_files[:3]`, line 50), then one iteration per file. -/
def main_process (files : List FileSim) : List FileOutcome :=
  (files.take 3).map process_one_file

/-- `st.session_state.results` after the batch: the records appended by
the successful iterations, in upload order. -/
def batch_results (files : List FileSim) : List ProcessingRecord :=
  (main_process files).filterMap (fun o => o.record)

/-- The batch-level `has_issues` summary computed by `display_results`
(lines 126-129 of `src/app.py`):
`any(result["analysis"].get("has_issues", True) for result in results)`. -/
def display_summary_has_issues (results : List ProcessingRecord) : Bool :=
  results.any (fun r => r.analysis.has_issues.getD true)

/-- The two banners `display_results` can show. -/
inductive Banner where
  | warning
  | success
deriving DecidableEq

/-- Which banner `display_results` renders (lines 131-134):
`st.warning` when any document has issues, else `st.success`. -/
def display_banner (results : List ProcessingRecord) : Banner :=
  if display_summary_has_issues results then .warning else .success

/-- The record dictionary as `format_results` receives it from
`display_results` (its `document_type` and `analysis` keys are always
present on records built by the loop). -/
def ProcessingRecord.toRecord (p : ProcessingRecord) : ResultRecord :=
  { document_type := some p.document_type, analysis := some p.analysis }

/-! ## Helper lemmas -/

theorem startsWithChars_append_self (n c : List Char) :
    startsWithChars (n ++ c) n = true := by
  induction n with
  | nil => cases c <;> rfl
  | cons x xs ih => simp [startsWithChars, ih]

theorem occursIn_self_append (n c : List Char) :
    occursIn n (n ++ c) = true := by
  cases n with
  | nil =>
    cases c with
    | nil => rfl
    | cons h t => simp [occursIn, startsWithChars]
  | cons x xs =>
    simp only [occursIn, List.cons_append, Bool.or_eq_true]
    exact Or.inl (startsWithChars_append_self (x :: xs) c)

theorem occursIn_append_right (xs n ys : List Char)
    (h : occursIn n ys = true) : occursIn n (xs ++ ys) = true := by
  induction xs with
  | nil => simpa using h
  | cons x t ih => simp [occursIn, ih]

theorem string_data_append (s t : String) : (s ++ t).data = s.data ++ t.data := rfl

/-- A string occurring as a middle chunk of a concatenation is found by
`containsSubstring`. -/
theorem contains_middle (a b c : String) :
    containsSubstring (a ++ (b ++ c)) b = true := by
  unfold containsSubstring
  rw [string_data_append, string_data_append]
  exact occursIn_append_right a.data b.data (b.data ++ c.data)
    (occursIn_self_append b.data c.data)

theorem try_models_success_step (provider : Nat → LlmResponse) (m : String)
    (rest : List String) (calls : Nat)
    (h200 : (provider calls).status_code = 200)
    (hp : (provider calls).content_parses = true) :
    try_models provider (m :: rest) calls = .success (provider calls).parsed (calls + 1) := by
  simp [try_models, h200, hp]

theorem try_models_advance_step (provider : Nat → LlmResponse) (m : String)
    (rest : List String) (calls : Nat)
    (h : attempt_advances (provider calls) = true) :
    try_models provider (m :: rest) calls = try_models provider rest (calls + 1) := by
  unfold attempt_advances model_unavailable at h
  rcases Bool.or_eq_true_iff.mp h with h1 | h2
  · rcases Bool.and_eq_true_iff.mp h1 with ⟨ha, hb⟩
    have ha' : (provider calls).status_code = 200 := by
      simpa using ha
    have hb' : (provider calls).content_parses = false := by
      simpa using hb
    simp [try_models, ha', hb']
  · rcases Bool.and_eq_true_iff.mp h2 with ⟨ha, hb⟩
    have ha' : (provider calls).status_code ≠ 200 := by
      simpa using ha
    simp [try_models, ha', hb]

theorem try_models_hard_error_step (provider : Nat → LlmResponse) (m : String)
    (rest : List String) (calls : Nat)
    (hs : (provider calls).status_code ≠ 200)
    (hmu : model_unavailable (provider calls) = false)
    (h4 : 400 ≤ (provider calls).status_code)
    (h6 : (provider calls).status_code < 600) :
    try_models provider (m :: rest) calls =
      .raised (provider calls).http_error_msg (calls + 1) := by
  unfold model_unavailable at hmu
  rcases Bool.or_eq_false_iff.mp hmu with ⟨h404, hmodel⟩
  simp [try_models, hs, h404, hmodel, h4, h6]

theorem process_one_file_success (sim : FileSim) (t : String) (r : AnalysisResult)
    (hv : validate_file_type sim.file = true)
    (ho : sim.ocr = .ok (some t)) (ht : t ≠ "")
    (ha : sim.analysis = .ok r) :
    process_one_file sim =
      { record := some
          { filename := sim.file.name,
            document_type := determine_document_type (some r),
            analysis := r },
        errors := [], temp_created := true, temp_removed := true } := by
  unfold process_one_file
  simp [hv, ho, ha, ht]

theorem process_one_file_raise (sim : FileSim) (m : String)
    (hv : validate_file_type sim.file = true)
    (ho : sim.ocr = .raise m) :
    process_one_file sim =
      { record := none,
        errors := ["Error processing " ++ sim.file.name ++ ": " ++ m],
        temp_created := true, temp_removed := false } := by
  unfold process_one_file
  simp [hv, ho]

/-! ## Claim theorems -/

/-- C2: `validate_file_type` returns true if and only if the declared
type is one of `application/pdf`, `image/jpeg`, `image/jpg`, `image/png`,
or the filename (case-insensitively) ends in `.pdf`; every other
combination yields false.  The function is total (never raises) by
construction. -/
theorem validate_file_type_spec (file : UploadedFile) :
    validate_file_type file = true ↔
      (file.type ∈ ["application/pdf", "image/jpeg", "image/jpg", "image/png"] ∨
        pyEndsWith (pyLower file.name) ".pdf" = true) := by
  unfold validate_file_type valid_types
  by_cases hmem : file.type ∈
      ["application/pdf", "image/jpeg", "image/jpg", "image/png"]
  · simp [hmem]
  · by_cases hpdf : pyEndsWith (pyLower file.name) ".pdf" = true
    · simp [hmem, hpdf]
    · simp [hmem, hpdf]

/-- C9: `format_results` is total by construction (a Lean function over
any record, with `getD` defaults for every absent field); on a record
whose analysis has `missing_codes=["CPT"]`, `invalid_codes=[]`,
`wrong_document_type=true`, `expected_type="EOB"`, the output contains
the missing-codes bullet section, contains no invalid-codes section,
and contains the "does not appear to be a EOB document" callout. -/
theorem format_results_completeness :
    containsSubstring
      (format_results
        { document_type := some "EOB",
          analysis := some
            { document_type := some "EOB", has_issues := some true,
              missing_codes := some ["CPT"], invalid_codes := some [],
              wrong_document_type := some true, expected_type := some "EOB",
              errors := some [], notes := none } })
      "**Missing Codes**:\n- CPT\n" = true ∧
    containsSubstring
      (format_results
        { document_type := some "EOB",
          analysis := some
            { document_type := some "EOB", has_issues := some true,
              missing_codes := some ["CPT"], invalid_codes := some [],
              wrong_document_type := some true, expected_type := some "EOB",
              errors := some [], notes := none } })
      "**Invalid Codes**" = false ∧
    containsSubstring
      (format_results
        { document_type := some "EOB",
          analysis := some
            { document_type := some "EOB", has_issues := some true,
              missing_codes := some ["CPT"], invalid_codes := some [],
              wrong_document_type := some true, expected_type := some "EOB",
              errors := some [], notes := none } })
      "does not appear to be a EOB document" = true := by
  refine ⟨by decide, by decide, by decide⟩

/-- C10: when `has_issues` is absent from a record's analysis, the system
defaults it to `true`: `format_results` renders the failure status line
and `display_results`'s batch summary counts the document as having
issues, so the warning banner is shown whatever the other records say. -/
theorem has_issues_default_true (p : ProcessingRecord)
    (pre post : List ProcessingRecord)
    (h : p.analysis.has_issues = none) :
    containsSubstring (format_results p.toRecord)
      "❌ **Status**: Issues found in this document.\n\n" = true ∧
    display_banner (pre ++ p :: post) = Banner.warning := by
  constructor
  · unfold format_results ProcessingRecord.toRecord
    simp only [Option.getD_some, h, Option.getD_none]
    exact contains_middle _ _ _
  · unfold display_banner display_summary_has_issues
    simp [h]

/-- Witness for C10 at a concrete record whose analysis omits
`has_issues`. -/
theorem has_issues_default_true_witness :
    containsSubstring
      (format_results (ProcessingRecord.toRecord
        { filename := "doc.pdf", document_type := "Unknown",
          analysis := emptyAnalysis }))
      "❌ **Status**: Issues found in this document.\n\n" = true ∧
    display_banner ([] ++
      { filename := "doc.pdf", document_type := "Unknown",
        analysis := emptyAnalysis } :: []) = Banner.warning :=
  has_issues_default_true
    { filename := "doc.pdf", document_type := "Unknown",
      analysis := emptyAnalysis } [] [] rfl

/-- C3: if every one of the three fallback attempts fails (model
unavailable, or a 200 response whose JSON content does not parse),
`analyze_document_content` raises nothing and returns the synthetic
result with `document_type = "Unknown"`, `has_issues = true`, and a
non-empty `errors` list; exactly the three attempts are made. -/
theorem analyze_fallback_exhaustion (key : String) (provider : Nat → LlmResponse)
    (h0 : attempt_advances (provider 0) = true)
    (h1 : attempt_advances (provider 1) = true)
    (h2 : attempt_advances (provider 2) = true) :
    analyze_document_content (some key) provider =
      .returned all_models_failed_result 3 [] ∧
    all_models_failed_result.document_type = some "Unknown" ∧
    all_models_failed_result.has_issues = some true ∧
    all_models_failed_result.errors =
      some ["Failed to analyze document with all available models."] := by
  refine ⟨?_, rfl, rfl, rfl⟩
  unfold analyze_document_content models_to_try
  rw [try_models_advance_step provider _ _ 0 h0,
    try_models_advance_step provider _ _ 1 h1,
    try_models_advance_step provider _ _ 2 h2]
  rfl

/-- Witness for C3 with three concrete 404 responses. -/
theorem analyze_fallback_exhaustion_witness :
    analyze_document_content (some "key")
      (fun _ => { status_code := 404, text := "The model does not exist",
                  content_parses := false, parsed := emptyAnalysis,
                  http_error_msg := "404 Client Error" }) =
      .returned all_models_failed_result 3 [] ∧
    all_models_failed_result.document_type = some "Unknown" ∧
    all_models_failed_result.has_issues = some true ∧
    all_models_failed_result.errors =
      some ["Failed to analyze document with all available models."] :=
  analyze_fallback_exhaustion "key" _ (by decide) (by decide) (by decide)

/-- C5: the analyzer tries the three model identifiers `gpt-4.1`,
`gpt-4.1-mini`, `gpt-4` in that order; with the first two attempts
answered "model unavailable" and the third succeeding with parseable
JSON, it returns the third attempt's parsed result having made exactly
three provider calls — none after the third attempt. -/
theorem analyze_fallback_third_success (key : String) (provider : Nat → LlmResponse)
    (h0s : (provider 0).status_code ≠ 200)
    (h0m : model_unavailable (provider 0) = true)
    (h1s : (provider 1).status_code ≠ 200)
    (h1m : model_unavailable (provider 1) = true)
    (h2s : (provider 2).status_code = 200)
    (h2p : (provider 2).content_parses = true) :
    models_to_try = ["gpt-4.1", "gpt-4.1-mini", "gpt-4"] ∧
    analyze_document_content (some key) provider =
      .returned (provider 2).parsed 3 [] := by
  refine ⟨rfl, ?_⟩
  have a0 : attempt_advances (provider 0) = true := by
    unfold attempt_advances
    simp [h0s, h0m]
  have a1 : attempt_advances (provider 1) = true := by
    unfold attempt_advances
    simp [h1s, h1m]
  unfold analyze_document_content models_to_try
  rw [try_models_advance_step provider _ _ 0 a0,
    try_models_advance_step provider _ _ 1 a1,
    try_models_success_step provider _ _ 2 h2s h2p]

/-- Witness for C5: two 404 responses, then a 200 with parseable JSON. -/
theorem analyze_fallback_third_success_witness :
    models_to_try = ["gpt-4.1", "gpt-4.1-mini", "gpt-4"] ∧
    analyze_document_content (some "key")
      (fun i =>
        if i < 2 then
          { status_code := 404, text := "model not found",
            content_parses := false, parsed := emptyAnalysis,
            http_error_msg := "404 Client Error" }
        else
          { status_code := 200, text := "ok", content_parses := true,
            parsed :=
              { document_type := some "Superbill", has_issues := some false,
                missing_codes := none, invalid_codes := none,
                wrong_document_type := none, expected_type := none,
                errors := none, notes := none },
            http_error_msg := "" }) =
      .returned
        { document_type := some "Superbill", has_issues := some false,
          missing_codes := none, invalid_codes := none,
          wrong_document_type := none, expected_type := none,
          errors := none, notes := none } 3 [] :=
  analyze_fallback_third_success "key" _ (by decide) (by decide) (by decide)
    (by decide) (by decide) (by decide)

/-- C4 counterexample: at a concrete non-model error (HTTP 500, body
"Internal Server Error", which is not a model-unavailable signal), the
error does not propagate out of `analyze_document_content`: the function
returns normally (with the outer handler's synthetic result) instead of
raising to its caller. -/
theorem analyze_error_not_propagated_cex :
    model_unavailable
      { status_code := 500, text := "Internal Server Error",
        content_parses := false, parsed := emptyAnalysis,
        http_error_msg := "500 Server Error: Internal Server Error for url" } = false ∧
    (analyze_document_content (some "key")
      (fun _ =>
        { status_code := 500, text := "Internal Server Error",
          content_parses := false, parsed := emptyAnalysis,
          http_error_msg := "500 Server Error: Internal Server Error for url" })).isRaised
      = false ∧
    analyze_document_content (some "key")
      (fun _ =>
        { status_code := 500, text := "Internal Server Error",
          content_parses := false, parsed := emptyAnalysis,
          http_error_msg := "500 Server Error: Internal Server Error for url" }) =
      .returned
        (analysis_error_result "500 Server Error: Internal Server Error for url") 1
        ["Error during document analysis: 500 Server Error: Internal Server Error for url"] := by
  refine ⟨by decide, by decide, by decide⟩

/-- C4 amended: an error status in the range `raise_for_status` raises
for (400-599) that is not a model-unavailable signal (status not 404
and body not containing "model") aborts the fallback loop immediately —
exactly one provider call, no further model tried — but does not escape
`analyze_document_content`: the outer handler catches it, displays it,
and returns a synthetic `Unknown`/`has_issues` result built from the
error's message. -/
theorem analyze_hard_error_caught (key : String) (provider : Nat → LlmResponse)
    (hs : (provider 0).status_code ≠ 200)
    (hmu : model_unavailable (provider 0) = false)
    (h4 : 400 ≤ (provider 0).status_code)
    (h6 : (provider 0).status_code < 600) :
    analyze_document_content (some key) provider =
      .returned (analysis_error_result (provider 0).http_error_msg) 1
        ["Error during document analysis: " ++ (provider 0).http_error_msg] := by
  unfold analyze_document_content models_to_try
  rw [try_models_hard_error_step provider _ _ 0 hs hmu h4 h6]

/-- Witness for the amended C4 at the concrete HTTP 500 response. -/
theorem analyze_hard_error_caught_witness :
    analyze_document_content (some "key")
      (fun _ =>
        { status_code := 500, text := "Bad Gateway",
          content_parses := false, parsed := emptyAnalysis,
          http_error_msg := "500 Server Error" }) =
      .returned (analysis_error_result "500 Server Error") 1
        ["Error during document analysis: 500 Server Error"] :=
  analyze_hard_error_caught "key" _ (by decide) (by decide) (by decide) (by decide)

/-- C6 counterexample: at a concrete non-200 response (HTTP 500, body
"Internal Server Error"), `process_document_ocr` does not raise: it
displays an error message embedding the status code and raw body and
returns `None` to its caller. -/
theorem ocr_non200_returns_none_cex :
    (process_document_ocr (some "key") 100
      { raised := none, status_code := 500,
        text := "Internal Server Error", extracted := "" }).outcome.isRaised = false ∧
    process_document_ocr (some "key") 100
      { raised := none, status_code := 500,
        text := "Internal Server Error", extracted := "" } =
      { requests_attempted := 1,
        outcome := .returned none ["OCR API Error: 500 - Internal Server Error"] } := by
  refine ⟨by decide, by decide⟩

/-- C6 amended: on any non-200 OCR response, `process_document_ocr`
displays exactly one error message of the form
`OCR API Error: {status} - {body}` — embedding the status code and the
raw response body — and returns `None`; the single request is not
retried and the failure is not silently discarded. -/
theorem ocr_non200_reports_and_returns_none (key : String) (file_size : Nat)
    (http : OcrHttpResult)
    (hok : http.raised = none)
    (hs : http.status_code ≠ 200) :
    process_document_ocr (some key) file_size http =
      { requests_attempted := 1,
        outcome := .returned none
          ["OCR API Error: " ++ toString http.status_code ++ " - " ++ http.text] } := by
  unfold process_document_ocr
  rw [hok]
  simp [hs]

/-- Witness for the amended C6 at a concrete 429 response. -/
theorem ocr_non200_reports_and_returns_none_witness :
    process_document_ocr (some "key") 2048
      { raised := none, status_code := 429,
        text := "Too Many Requests", extracted := "" } =
      { requests_attempted := 1,
        outcome := .returned none
          ["OCR API Error: " ++ toString (429 : Nat) ++ " - " ++ "Too Many Requests"] } :=
  ocr_non200_reports_and_returns_none "key" 2048 _ rfl (by decide)

/-- C7 counterexample: a 8,000,000-byte file whose base64 encoding
(10,666,668 bytes) exceeds 10 MB is not rejected: `process_document_ocr`
still attempts the network request and raises no size-limit error —
no size guard exists in the source. -/
theorem ocr_no_size_guard_cex :
    10 * 1024 * 1024 < b64_encoded_size 8000000 ∧
    process_document_ocr (some "key") 8000000
      { raised := none, status_code := 200, text := "",
        extracted := "extracted text" } =
      { requests_attempted := 1,
        outcome := .returned (some "extracted text") [] } := by
  refine ⟨by decide, by decide⟩

/-- C7 amended: `process_document_ocr` performs no payload-size check at
all: with the credential configured, whatever the file size, exactly one
provider request is attempted and no error is raised before (or after)
it — oversized payloads included. -/
theorem ocr_request_regardless_of_size (key : String) (file_size : Nat)
    (http : OcrHttpResult) :
    (process_document_ocr (some key) file_size http).requests_attempted = 1 ∧
    (process_document_ocr (some key) file_size http).outcome.isRaised = false := by
  unfold process_document_ocr
  cases h : http.raised with
  | some msg => exact ⟨rfl, rfl⟩
  | none =>
    by_cases hs : http.status_code = 200
    · simp [hs, OcrOutcome.isRaised]
    · simp [hs, OcrOutcome.isRaised]

/-- C1: an exception raised while processing one file is caught at the
per-file boundary and does not abort the rest of the batch: with three
uploaded files where file 2's OCR step raises, the orchestrator still
appends the `ProcessingRecord`s of files 1 and 3 (in order) to the
results list, and the iteration for file 2 reports an error while files
1 and 3 report none. -/
theorem batch_isolation (f1 f2 f3 : FileSim) (t1 t3 m : String)
    (r1 r3 : AnalysisResult)
    (v1 : validate_file_type f1.file = true)
    (o1 : f1.ocr = .ok (some t1)) (ht1 : t1 ≠ "")
    (a1 : f1.analysis = .ok r1)
    (v2 : validate_file_type f2.file = true)
    (o2 : f2.ocr = .raise m)
    (v3 : validate_file_type f3.file = true)
    (o3 : f3.ocr = .ok (some t3)) (ht3 : t3 ≠ "")
    (a3 : f3.analysis = .ok r3) :
    batch_results [f1, f2, f3] =
      [{ filename := f1.file.name,
         document_type := determine_document_type (some r1), analysis := r1 },
       { filename := f3.file.name,
         document_type := determine_document_type (some r3), analysis := r3 }] ∧
    (main_process [f1, f2, f3]).map (fun o => o.errors) =
      [[], ["Error processing " ++ f2.file.name ++ ": " ++ m], []] := by
  have e1 := process_one_file_success f1 t1 r1 v1 o1 ht1 a1
  have e2 := process_one_file_raise f2 m v2 o2
  have e3 := process_one_file_success f3 t3 r3 v3 o3 ht3 a3
  unfold batch_results main_process
  simp [e1, e2, e3]

/-- Witness for C1 on a concrete three-file batch whose second file's
OCR call raises. -/
theorem batch_isolation_witness :
    batch_results
      [{ file := { name := "one.pdf", type := "application/pdf" },
         ocr := .ok (some "text one"), analysis := .ok emptyAnalysis },
       { file := { name := "two.pdf", type := "application/pdf" },
         ocr := .raise "Mistral API key not found in environment variables",
         analysis := .ok emptyAnalysis },
       { file := { name := "three.jpg", type := "image/jpeg" },
         ocr := .ok (some "text three"), analysis := .ok emptyAnalysis }] =
      [{ filename := "one.pdf",
         document_type := determine_document_type (some emptyAnalysis),
         analysis := emptyAnalysis },
       { filename := "three.jpg",
         document_type := determine_document_type (some emptyAnalysis),
         analysis := emptyAnalysis }] ∧
    (main_process
      [{ file := { name := "one.pdf", type := "application/pdf" },
         ocr := .ok (some "text one"), analysis := .ok emptyAnalysis },
       { file := { name := "two.pdf", type := "application/pdf" },
         ocr := .raise "Mistral API key not found in environment variables",
         analysis := .ok emptyAnalysis },
       { file := { name := "three.jpg", type := "image/jpeg" },
         ocr := .ok (some "text three"), analysis := .ok emptyAnalysis }]).map
      (fun o => o.errors) =
      [[], ["Error processing " ++ "two.pdf" ++ ": " ++
        "Mistral API key not found in environment variables"], []] :=
  batch_isolation _ _ _ "text one" "text three"
    "Mistral API key not found in environment variables"
    emptyAnalysis emptyAnalysis
    (by decide) rfl (by decide) rfl (by decide) rfl (by decide) rfl (by decide) rfl

/-- C8 is wrong about the code (a resource-leak bug): the temporary file
is only removed on the full success path.  When OCR extraction fails
(`extracted_text` falsy: the `continue` on line 90 of `src/app.py`
skips `os.unlink`) or when an exception is raised mid-processing (the
per-file `except` catches it before `os.unlink` runs), the temporary
file is left behind.  Both failure paths are exhibited here on valid
uploads. -/
theorem temp_file_leaked_on_ocr_failure :
    validate_file_type { name := "doc1.pdf", type := "application/pdf" } = true ∧
    process_one_file
      { file := { name := "doc1.pdf", type := "application/pdf" },
        ocr := .ok none, analysis := .ok emptyAnalysis } =
      { record := none, errors := ["Failed to extract text from doc1.pdf"],
        temp_created := true, temp_removed := false } ∧
    process_one_file
      { file := { name := "doc2.pdf", type := "application/pdf" },
        ocr := .raise "boom", analysis := .ok emptyAnalysis } =
      { record := none, errors := ["Error processing doc2.pdf: boom"],
        temp_created := true, temp_removed := false } := by
  refine ⟨by decide, by decide, by decide⟩

end Champva
